import Mathlib

/-!
# Verification of the vLab IPAM port-mapping transaction engine

A shallow embedding of the port-mapping logic of `vlab_ipam_api`:

* `vlab_ipam_api/lib/firewall.py` — the `FireWall` class (`map_port`,
  `find_rule`, `_prettify_nat_output`, `_prettify_filter_output`);
* `vlab_ipam_api/lib/database.py` — the `Database` class (`add_port`,
  `lookup_addr`);
* `vlab_ipam_api/lib/views/portmap.py` — `records_valid`,
  `remove_port_map` and the `PortMapView.post` handler.

Python exceptions are modelled by the inductive type `PyErr`; fallible
code returns `Except PyErr α`.  Operations whose outcome depends on the
outside world (shell commands, the SQL store) take their outcomes from an
explicit oracle record, and the functions additionally return the list of
external calls they performed, so that compensation behaviour ("exactly
one compensating delete") is provable.  Python's dynamic truthiness is
modelled by `PyVal` where the distinction matters (`records_valid`).
-/

set_option autoImplicit false

namespace VlabIpam

/-- The Python exception values that the modelled code can raise.
`databaseError` is `vlab_ipam_api.lib.exceptions.DatabaseError` (it carries
the postgres error code used to detect uniqueness violations);
`cliError` is `vlab_ipam_api.lib.exceptions.CliError`; the rest are the
builtin Python exception classes of the same name. -/
inductive PyErr where
  | cliError (msg : String)
  | runtimeError (msg : String)
  | valueError (msg : String)
  | indexError (msg : String)
  | osError (msg : String)
  | databaseError (msg : String) (pgcode : String)
  | unboundLocalError (name : String)
deriving DecidableEq, Repr

/-- The message a caller sees via Python's `'%s' % doh` formatting. -/
def pymsg : PyErr → String
  | .cliError m => m
  | .runtimeError m => m
  | .valueError m => m
  | .indexError m => m
  | .osError m => m
  | .databaseError m _ => m
  | .unboundLocalError n => "local variable '" ++ n ++ "' referenced before assignment"

/-- A dynamically typed Python value, as far as the truthiness tests in
`records_valid` are concerned: `None`, an integer, or a string. -/
inductive PyVal where
  | pynone
  | pyint (n : Int)
  | pystr (s : String)
deriving DecidableEq, Repr

/-- Python truthiness: `None` is falsy, `0` is falsy, `""` is falsy. -/
def PyVal.truthy : PyVal → Bool
  | .pynone => false
  | .pyint n => n != 0
  | .pystr s => s != ""

/-- `records_valid` from `vlab_ipam_api/lib/views/portmap.py`: classifies
the presence combinations of the iptables rule IDs and the database record
fields before a destroy, returning `(error message, HTTP status code)`. -/
def records_valid (nat_id filter_id target_port target_addr : PyVal) : String × Nat :=
  if (target_port.truthy && target_addr.truthy) && !(nat_id.truthy && filter_id.truthy) then
    ("DB record exist, but no iptable record; contact admin.", 500)
  else if !(target_port.truthy && target_addr.truthy) && (nat_id.truthy && filter_id.truthy) then
    ("iptable record exist, but no DB record; contact admin.", 500)
  else if !(target_port.truthy && target_addr.truthy && nat_id.truthy && filter_id.truthy) then
    ("No such port mapping record", 404)
  else
    ("", 200)

/-! ## `FireWall.map_port` (firewall.py, lines 41-64)

The outcomes of the external sub-operations (`forward`, `prerouting`,
`delete_rule`, `save_rules` — each a shell invocation plus a re-parse) are
supplied by a `MapPortOps` oracle; `map_port` returns the Python result of
the method together with the ordered list of sub-calls it performed.
Rule IDs are the strings parsed out of the iptables listing. -/

/-- The environment of one `map_port` execution: the outcome of each
sub-operation it may perform (`forward`/`prerouting` for the fixed
arguments of this execution, `delete_rule` as a function of its
arguments). -/
structure MapPortOps where
  forward : Except PyErr String
  prerouting : Except PyErr String
  delete_rule : String → String → Except PyErr Unit
  save_rules : Except PyErr Unit

/-- A record of one sub-call performed by `map_port`. -/
inductive FwCall where
  | forwardCall
  | preroutingCall
  | deleteRuleCall (rule_id : String) (table : String)
  | saveRulesCall
deriving DecidableEq, Repr

/-- `except (CliError, RuntimeError)`: which exception classes the
`try/except` in `map_port` catches. -/
def isCliOrRuntime : PyErr → Bool
  | .cliError _ => true
  | .runtimeError _ => true
  | _ => false

/-- `FireWall.map_port` from `vlab_ipam_api/lib/firewall.py`: create the
FORWARD (filter) rule, then the PREROUTING (nat) rule; if the latter
raises `CliError` or `RuntimeError`, delete the just-created forward rule
and re-raise.  Python semantics: if the compensating `delete_rule` raises
inside the `except` block, that exception propagates and the `raise doh`
re-raising the original error is never reached.  On success, persist with
`save_rules` and return both rule IDs. -/
def map_port (ops : MapPortOps) : Except PyErr (String × String) × List FwCall :=
  match ops.forward with
  | .error e => (.error e, [.forwardCall])
  | .ok forward_id =>
    match ops.prerouting with
    | .ok prerouting_id =>
      match ops.save_rules with
      | .error e => (.error e, [.forwardCall, .preroutingCall, .saveRulesCall])
      | .ok _ =>
        (.ok (forward_id, prerouting_id), [.forwardCall, .preroutingCall, .saveRulesCall])
    | .error doh =>
      if isCliOrRuntime doh then
        match ops.delete_rule forward_id "filter" with
        | .error e2 =>
          (.error e2, [.forwardCall, .preroutingCall, .deleteRuleCall forward_id "filter"])
        | .ok _ =>
          (.error doh, [.forwardCall, .preroutingCall, .deleteRuleCall forward_id "filter"])
      else
        (.error doh, [.forwardCall, .preroutingCall])

/-- How many `delete_rule` sub-calls a trace contains. -/
def countDeletes (trace : List FwCall) : Nat :=
  (trace.filter fun c => match c with | .deleteRuleCall _ _ => true | _ => false).length

/-- A concrete `map_port` environment in which the forward rule is created
as rule "9", the prerouting step fails, and the compensating delete itself
fails. -/
def mapPortCompFailOps : MapPortOps where
  forward := .ok "9"
  prerouting := .error (.runtimeError "testing")
  delete_rule := fun _ _ => .error (.cliError "delete blew up")
  save_rules := .ok ()

/-- A concrete `map_port` environment in which the forward rule is created
as rule "9", the prerouting step fails, and the compensating delete
succeeds. -/
def mapPortCompOkOps : MapPortOps where
  forward := .ok "9"
  prerouting := .error (.runtimeError "testing")
  delete_rule := fun _ _ => .ok ()
  save_rules := .ok ()

/-! ## `remove_port_map` (views/portmap.py, lines 230-280)

The destroy path of the saga, after `records_valid` has passed.  The
outcomes of the firewall and database sub-operations are again supplied
by an oracle; the function returns Python's result — `.ok (error, status)`
for a normal return of the `(error, status_code)` tuple, `.error e` for an
exception escaping `remove_port_map` — together with the list of
sub-calls performed. -/

/-- The environment of one `remove_port_map` execution: the outcome of
each sub-operation it may perform, for the fixed arguments of this
execution (`delete_rule` as a function of its arguments). -/
structure RemoveOps where
  delete_rule : String → String → Except PyErr Unit
  forward : Except PyErr String
  save_rules : Except PyErr Unit
  map_port : Except PyErr (String × String)
  delete_port : Except PyErr Unit

/-- A record of one sub-call performed by `remove_port_map`. -/
inductive RmCall where
  | deleteRuleCall (rule_id : String) (table : String)
  | forwardCall (target_port : Int) (target_addr : String)
  | saveRulesCall
  | mapPortCall (conn_port : Int) (target_port : Int) (target_addr : String)
  | deletePortCall (conn_port : Int)
deriving DecidableEq, Repr

/-- `remove_port_map` from `vlab_ipam_api/lib/views/portmap.py`: delete
the nat rule, then the filter rule.  If deleting the filter rule raises,
recreate the forward rule and persist (`forward` then `save_rules`) and
return the filter-delete failure with status 500; Python semantics: if the
compensating `forward` or `save_rules` raises inside the `except` block,
that exception escapes the function.  If both rule deletions succeed,
delete the database record; if that raises, recreate both rules with
`map_port` and return the record-delete failure with status 500 — again,
if the compensating `map_port` raises, that exception escapes. -/
def remove_port_map (ops : RemoveOps) (nat_id filter_id : String)
    (target_port : Int) (target_addr : String) (conn_port : Int) :
    Except PyErr (Option String × Nat) × List RmCall :=
  match ops.delete_rule nat_id "nat" with
  | .error e => (.error e, [.deleteRuleCall nat_id "nat"])
  | .ok _ =>
    match ops.delete_rule filter_id "filter" with
    | .error doh =>
      match ops.forward with
      | .error e2 =>
        (.error e2, [.deleteRuleCall nat_id "nat", .deleteRuleCall filter_id "filter",
                     .forwardCall target_port target_addr])
      | .ok _ =>
        match ops.save_rules with
        | .error e2 =>
          (.error e2, [.deleteRuleCall nat_id "nat", .deleteRuleCall filter_id "filter",
                       .forwardCall target_port target_addr, .saveRulesCall])
        | .ok _ =>
          (.ok (some (pymsg doh), 500),
           [.deleteRuleCall nat_id "nat", .deleteRuleCall filter_id "filter",
            .forwardCall target_port target_addr, .saveRulesCall])
    | .ok _ =>
      match ops.delete_port with
      | .ok _ =>
        (.ok (none, 200),
         [.deleteRuleCall nat_id "nat", .deleteRuleCall filter_id "filter",
          .deletePortCall conn_port])
      | .error doh =>
        match ops.map_port with
        | .error e2 =>
          (.error e2, [.deleteRuleCall nat_id "nat", .deleteRuleCall filter_id "filter",
                       .deletePortCall conn_port,
                       .mapPortCall conn_port target_port target_addr])
        | .ok _ =>
          (.ok (some (pymsg doh), 500),
           [.deleteRuleCall nat_id "nat", .deleteRuleCall filter_id "filter",
            .deletePortCall conn_port, .mapPortCall conn_port target_port target_addr])

/-- How many `forward` sub-calls a destroy trace contains. -/
def countForwards (trace : List RmCall) : Nat :=
  (trace.filter fun c => match c with | .forwardCall _ _ => true | _ => false).length

/-- How many `map_port` sub-calls a destroy trace contains. -/
def countMapPorts (trace : List RmCall) : Nat :=
  (trace.filter fun c => match c with | .mapPortCall _ _ _ => true | _ => false).length

/-- How many `delete_port` (database record delete) sub-calls a destroy
trace contains. -/
def countDeletePorts (trace : List RmCall) : Nat :=
  (trace.filter fun c => match c with | .deletePortCall _ => true | _ => false).length

/-- Destroy environment: the nat-rule delete succeeds, the filter-rule
delete fails, and the compensating `forward` succeeds. -/
def removeFilterFailOps : RemoveOps where
  delete_rule := fun _ table => if table == "filter" then .error (.cliError "testing") else .ok ()
  forward := .ok "9"
  save_rules := .ok ()
  map_port := .ok ("9", "3")
  delete_port := .ok ()

/-- Destroy environment: the nat-rule delete succeeds, the filter-rule
delete fails, and the compensating `forward` itself fails. -/
def removeFilterFailCompFailOps : RemoveOps where
  delete_rule := fun _ table => if table == "filter" then .error (.cliError "testing") else .ok ()
  forward := .error (.runtimeError "Unable to find newly created FORWARD rule for 1.2.3.4:22")
  save_rules := .ok ()
  map_port := .ok ("9", "3")
  delete_port := .ok ()

/-- Destroy environment: both rule deletions succeed, the database record
delete fails, and the compensating `map_port` succeeds. -/
def removeDbFailOps : RemoveOps where
  delete_rule := fun _ _ => .ok ()
  forward := .ok "9"
  save_rules := .ok ()
  map_port := .ok ("9", "3")
  delete_port := .error (.databaseError "testing" "57P01")

/-- Destroy environment: both rule deletions succeed, the database record
delete fails, and the compensating `map_port` itself fails. -/
def removeDbFailCompFailOps : RemoveOps where
  delete_rule := fun _ _ => .ok ()
  forward := .ok "9"
  save_rules := .ok ()
  map_port := .error (.cliError "iptables exploded")
  delete_port := .error (.databaseError "testing" "57P01")

/-! ## `Database.add_port` (database.py, lines 74-110)

`Database.execute` only ever raises `DatabaseError` (psycopg2 errors are
translated), so the outcome of the `i`-th INSERT attempt is modelled as
`Except DbError Unit`.  The ports drawn by `random.randint` are modelled
as a stream indexed by the attempt number, and `add_port` returns, next
to its Python result, the list of ports it attempted to insert. -/

/-- `vlab_ipam_api.lib.exceptions.DatabaseError` as raised by
`Database.execute`: a message and the postgres error code (`'23505'` is a
uniqueness violation). -/
structure DbError where
  message : String
  pgcode : String
deriving DecidableEq, Repr

/-- The configuration constants of `vlab_ipam_api/lib/constants.py` that
`add_port` reads (shown with their default values; each can be overridden
through the environment). -/
structure Constants where
  VLAB_PORT_MIN : Nat := 50000
  VLAB_PORT_MAX : Nat := 50100
  VLAB_INSERT_MAX_TRIES : Nat := 100

/-- The retry loop of `Database.add_port`: `i` is the index of the next
attempt, and the second argument the number of loop iterations left out of
`maxTries`.  Each iteration draws `ports i` (modelling
`random.randint(VLAB_PORT_MIN, VLAB_PORT_MAX)`) and runs the INSERT with
outcome `insert i`: a `DatabaseError` with pgcode `'23505'` means the
port is already in use and the loop continues; any other `DatabaseError`
is re-raised; success breaks the loop and returns the port.  Running out
of iterations triggers the `for/else` clause raising `RuntimeError`. -/
def add_port_go (insert : Nat → Except DbError Unit) (ports : Nat → Nat) (maxTries : Nat)
    (i : Nat) : Nat → Except PyErr Nat × List Nat
  | 0 => (.error (.runtimeError
            ("Failed to create port map after " ++ toString maxTries ++ " tries")), [])
  | remaining + 1 =>
    let conn_port := ports i
    match insert i with
    | .error doh =>
      if doh.pgcode == "23505" then
        let rest := add_port_go insert ports maxTries (i + 1) remaining
        (rest.1, conn_port :: rest.2)
      else
        (.error (.databaseError doh.message doh.pgcode), [conn_port])
    | .ok _ => (.ok conn_port, [conn_port])

/-- `Database.add_port` from `vlab_ipam_api/lib/database.py`: up to
`VLAB_INSERT_MAX_TRIES` attempts to insert a randomly drawn connection
port, retrying only on the uniqueness-violation code. -/
def add_port (insert : Nat → Except DbError Unit) (ports : Nat → Nat) (c : Constants) :
    Except PyErr Nat × List Nat :=
  add_port_go insert ports c.VLAB_INSERT_MAX_TRIES 0 c.VLAB_INSERT_MAX_TRIES

/-- Whether a Python result is a raised `DatabaseError` (the spec's
`StoreError`). -/
def raisedStoreError {α : Type} : Except PyErr α → Bool
  | .error (.databaseError _ _) => true
  | _ => false

/-- A three-attempt configuration (`VLAB_INSERT_MAX_TRIES` overridden to
3) used to exercise the exhaustion path concretely. -/
def threeTriesConst : Constants :=
  { VLAB_PORT_MIN := 50000, VLAB_PORT_MAX := 50100, VLAB_INSERT_MAX_TRIES := 3 }

/-- An insert oracle in which every attempt reports the
uniqueness-violation code. -/
def alwaysCollide : Nat → Except DbError Unit :=
  fun _ => .error { message := "testing", pgcode := "23505" }

/-- An insert oracle in which the first attempt reports the
uniqueness-violation code and the second succeeds. -/
def collideThenOk : Nat → Except DbError Unit :=
  fun i => if i == 0 then .error { message := "testing", pgcode := "23505" } else .ok ()

/-- An insert oracle in which the first attempt fails with a
non-uniqueness store code. -/
def fatalFirst : Nat → Except DbError Unit :=
  fun _ => .error { message := "server shutting down", pgcode := "57P01" }

/-- A concrete stream of drawn ports. -/
def examplePorts : Nat → Nat :=
  fun i => 50000 + i

/-! ## `PortMapView.post` (views/portmap.py, lines 114-147)

The create path of the saga.  `Database()` construction, `db.add_port`,
`firewall.map_port` and `db.delete_port` outcomes are supplied by an
oracle.  A normal return is `.ok (error, conn_port, status)` — the
response's error field, its `content.conn_port` field and the HTTP status
code; `.error e` means an exception escaped the view function.

The local variable `conn_port` is only bound by a successful
`db.add_port` call.  When `add_port` itself raises, the shared `except`
block still executes `db.delete_port(conn_port)`, whose argument
evaluation then raises `UnboundLocalError` — so the `finally` closes the
database and that `UnboundLocalError`, not the `add_port` failure,
escapes the view. -/

/-- The environment of one `PortMapView.post` execution. -/
structure PostOps where
  db_init : Except PyErr Unit
  add_port : Except PyErr Int
  map_port : Int → Except PyErr (String × String)
  delete_port : Int → Except PyErr Unit

/-- A record of one sub-call performed by `PortMapView.post`. -/
inductive PostCall where
  | addPortCall
  | mapPortCall (conn_port : Int)
  | deletePortCall (conn_port : Int)
  | dbCloseCall
deriving DecidableEq, Repr

/-- `PortMapView.post` from `vlab_ipam_api/lib/views/portmap.py` (after
authentication and schema validation): create the record with `add_port`,
then the firewall rules with `map_port`; on any exception run the
compensating `db.delete_port(conn_port)` and report the error with
status 500; always close the database afterwards. -/
def post_portmap (ops : PostOps) : Except PyErr (Option String × Option Int × Nat) × List PostCall :=
  match ops.db_init with
  | .error doh => (.ok (some (pymsg doh), none, 500), [])
  | .ok _ =>
    match ops.add_port with
    | .error _ =>
      -- the except block evaluates `db.delete_port(conn_port)` with
      -- `conn_port` still unbound, raising UnboundLocalError
      (.error (.unboundLocalError "conn_port"), [.addPortCall, .dbCloseCall])
    | .ok conn_port =>
      match ops.map_port conn_port with
      | .error doh =>
        match ops.delete_port conn_port with
        | .error e2 =>
          (.error e2,
           [.addPortCall, .mapPortCall conn_port, .deletePortCall conn_port, .dbCloseCall])
        | .ok _ =>
          (.ok (some (pymsg doh), none, 500),
           [.addPortCall, .mapPortCall conn_port, .deletePortCall conn_port, .dbCloseCall])
      | .ok _ =>
        (.ok (none, some conn_port, 200),
         [.addPortCall, .mapPortCall conn_port, .dbCloseCall])

/-- A concrete create environment in which `add_port` itself raises a
(non-collision) `DatabaseError`. -/
def postAddPortFailOps : PostOps where
  db_init := .ok ()
  add_port := .error (.databaseError "testing" "234")
  map_port := fun _ => .ok ("9", "3")
  delete_port := fun _ => .ok ()

/-! ## `Database.lookup_addr` (database.py, lines 139-177)

The relational store is modelled as a list of `ipam` rows; the SQL
executed by `lookup_addr` is modelled by filtering, projecting and
de-duplicating that list.  SQL `LIKE` is modelled by `sqlLike` (`%` and
`_` wildcards); `SELECT DISTINCT` over the four projected columns by
`List.dedup` of the projected tuples.  The Python result dictionary is an
association list built exactly as the `for` loop builds it (`setdefault`
plus in-place mutation). -/

/-- SQL `LIKE` matching of a pattern (first list) against a string
(second list), with `%` matching any run and `_` any single character.
The fuel argument only forces structural recursion; every step shortens
`pattern.length + s.length`, so `pattern.length + s.length + 1` fuel is
always enough. -/
def likeMatchFuel : Nat → List Char → List Char → Bool
  | 0, _, _ => false
  | fuel + 1, ps, s =>
    match ps, s with
    | [], [] => true
    | [], _ :: _ => false
    | '%' :: ps2, [] => likeMatchFuel fuel ps2 []
    | '%' :: ps2, c :: cs =>
      likeMatchFuel fuel ps2 (c :: cs) || likeMatchFuel fuel ('%' :: ps2) cs
    | '_' :: ps2, _ :: cs => likeMatchFuel fuel ps2 cs
    | '_' :: _, [] => false
    | p :: ps2, c :: cs => (p == c) && likeMatchFuel fuel ps2 cs
    | _ :: _, [] => false

/-- `s LIKE pattern` for the parameterized `LIKE (%s)` clauses. -/
def sqlLike (s pattern : String) : Bool :=
  likeMatchFuel (pattern.length + s.length + 1) pattern.data s.data

/-- One row of the `ipam` table (relational schema of §6 of the spec;
`routable` is a nullable boolean written only by the liveness prober). -/
structure IpamRow where
  conn_port : Int
  target_addr : String
  target_port : Int
  target_name : String
  target_component : String
  routable : Option Bool
deriving DecidableEq, Repr

/-- The projection selected by
`SELECT DISTINCT target_name, target_addr, target_component, routable`. -/
structure AddrProj where
  target_name : String
  target_addr : String
  target_component : String
  routable : Option Bool
deriving DecidableEq, Repr

/-- Project an `ipam` row onto the four selected columns. -/
def projAddr (r : IpamRow) : AddrProj :=
  { target_name := r.target_name, target_addr := r.target_addr,
    target_component := r.target_component, routable := r.routable }

/-- One value of the dictionary `lookup_addr` returns: the
`component`/`routable`/`addr` keys the loop body writes. -/
structure AddrEntry where
  component : String
  routable : Option Bool
  addr : List String
deriving DecidableEq, Repr

/-- Python `dict` get: the value stored under a key, if present. -/
def pyGet {β : Type} : List (String × β) → String → Option β
  | [], _ => none
  | (k, v) :: rest, key => if k == key then some v else pyGet rest key

/-- Replace the value stored under an existing key, in place. -/
def updateKey {β : Type} : List (String × β) → String → β → List (String × β)
  | [], _, _ => []
  | (k, v) :: rest, key, nv =>
    if k == key then (k, nv) :: rest else (k, v) :: updateKey rest key nv

/-- The truthiness of the optional string arguments (`if addr:` in
Python): absent or empty means falsy. -/
def optStrTruthy : Option String → Bool
  | none => false
  | some s => s != ""

/-- The body of the `for the_name, the_addr, the_component, routable in
data:` loop of `lookup_addr`: `answer.setdefault(the_name, {})`, then
overwrite `component` and `routable`, then append `the_addr` to the
`addr` list. -/
def addAddrRow (answer : List (String × AddrEntry)) (t : AddrProj) :
    List (String × AddrEntry) :=
  match pyGet answer t.target_name with
  | some entry =>
    updateKey answer t.target_name
      { component := t.target_component, routable := t.routable,
        addr := entry.addr ++ [t.target_addr] }
  | none =>
    answer ++ [(t.target_name,
      { component := t.target_component, routable := t.routable,
        addr := [t.target_addr] })]

/-- `Database.lookup_addr` from `vlab_ipam_api/lib/database.py`: choose a
single `WHERE ... LIKE` clause by the `if addr: / elif name: / elif
component:` chain (no clause when all are absent), run the
`SELECT DISTINCT` and group the rows by machine name. -/
def lookup_addr (table : List IpamRow) (name addr component : Option String) :
    List (String × AddrEntry) :=
  let rows :=
    if optStrTruthy addr then table.filter (fun r => sqlLike r.target_addr (addr.getD ""))
    else if optStrTruthy name then table.filter (fun r => sqlLike r.target_name (name.getD ""))
    else if optStrTruthy component then
      table.filter (fun r => sqlLike r.target_component (component.getD ""))
    else table
  let data := (rows.map projAddr).dedup
  data.foldl addAddrRow []

/-- The one filter that `lookup_addr` actually applies to a row, by the
precedence of its `if/elif` chain: `addr` if truthy, else `name`, else
`component`, else no constraint. -/
def addrFilterApplied (name addr component : Option String) (r : IpamRow) : Bool :=
  if optStrTruthy addr then sqlLike r.target_addr (addr.getD "")
  else if optStrTruthy name then sqlLike r.target_name (name.getD "")
  else if optStrTruthy component then sqlLike r.target_component (component.getD "")
  else true

/-- A one-row table whose machine "a" has component "c": used to show
that a supplied `component` filter is ignored when `name` is also
supplied. -/
def exTable : List IpamRow :=
  [{ conn_port := 50001, target_addr := "1.1.1.1", target_port := 22,
     target_name := "a", target_component := "c", routable := some true }]

/-! ## The iptables listing parsers and `FireWall.find_rule`
(firewall.py, lines 107-138 and 197-253)

`_prettify_nat_output` and `_prettify_filter_output` parse the raw
`iptables --numeric -L <chain> --line-numbers` text into a dictionary
keyed by the rule's line number (a string).  Python list indexing,
whitespace splitting and `int()` are modelled by `pyIdx`, `pySplit` and
`pyInt`; a parser returns `.error e` when the Python code would raise
(IndexError on a short row, ValueError from `int()` or tuple unpacking).
Both dictionary value shapes are represented by `FwRule`, with
`conn_port := none` for filter-table rules, matching
`info.get('conn_port', None)` in `find_rule`. -/

/-- The characters Python's `str.split()` and `str.strip()` treat as
whitespace. -/
def isPySpace (c : Char) : Bool :=
  c == ' ' || c == '\t' || c == '\n' || c == '\r' || c == '\x0b' || c == '\x0c'

/-- Split a character list at every separator position: returns the
piece before the first separator and the remaining pieces. -/
def splitPredAux (p : Char → Bool) : List Char → List Char × List (List Char)
  | [] => ([], [])
  | c :: cs =>
    let r := splitPredAux p cs
    if p c then ([], r.1 :: r.2) else (c :: r.1, r.2)

/-- All the pieces of a character list split at every separator
position (empty pieces included, as Python's `str.split(sep)` keeps
them). -/
def splitPred (p : Char → Bool) (l : List Char) : List (List Char) :=
  (splitPredAux p l).1 :: (splitPredAux p l).2

/-- Python `s.split(sep)` for a one-character separator. -/
def pySplitOn (s : String) (sep : Char) : List String :=
  (splitPred (fun c => c == sep) s.data).map (fun cs => String.mk cs)

/-- Python `str.split()` with no argument: split on runs of whitespace,
discarding empty pieces. -/
def pySplit (s : String) : List String :=
  ((splitPred isPySpace s.data).map (fun cs => String.mk cs)).filter (fun w => w != "")

/-- The numeric value of a list of decimal digits. -/
def charsToNat (l : List Char) : Nat :=
  l.foldl (fun acc c => 10 * acc + (c.toNat - '0'.toNat)) 0

/-- Python `int(s)`: optional surrounding whitespace and sign, then
decimal digits; anything else raises `ValueError`. -/
def pyInt (s : String) : Except PyErr Int :=
  let t := ((s.data.dropWhile isPySpace).reverse.dropWhile isPySpace).reverse
  let signAndDigits : Int × List Char :=
    match t with
    | '-' :: rest => (-1, rest)
    | '+' :: rest => (1, rest)
    | _ => (1, t)
  if signAndDigits.2 ≠ [] ∧ signAndDigits.2.all Char.isDigit then
    .ok (signAndDigits.1 * (charsToNat signAndDigits.2 : Int))
  else
    .error (.valueError ("invalid literal for int() with base 10: " ++ s))

/-- Python list indexing `l[i]`, including negative indices from the
end; out of range raises `IndexError`. -/
def pyIdx {α : Type} (l : List α) (i : Int) : Except PyErr α :=
  let j : Int := if i < 0 then (l.length : Int) + i else i
  if j < 0 then .error (.indexError "list index out of range")
  else
    match l.get? j.toNat with
    | some v => .ok v
    | none => .error (.indexError "list index out of range")

/-- Python `rules[rid] = v`: overwrite in place if the key exists,
otherwise append the new binding. -/
def dictInsert {β : Type} (d : List (String × β)) (k : String) (v : β) : List (String × β) :=
  if (pyGet d k).isSome then updateKey d k v else d ++ [(k, v)]

/-- One parsed iptables rule: nat-table rules carry the connection port
(`'conn_port'` key present), filter-table rules do not. -/
structure FwRule where
  conn_port : Option Int := none
  target_addr : String
  target_port : Int
deriving DecidableEq, Repr

/-- One iteration of the `for row in rows:` loop of
`_prettify_nat_output`: `columns = row.split()`, `rid = columns[0]`,
`conn_port = columns[-2].split(':')[-1]`, `target = columns[-1]`,
`_, target_ip, target_port = target.split(':')`, then build the entry
with `int()` conversions. -/
def parseNatRow (row : String) : Except PyErr (String × FwRule) :=
  match pyIdx (pySplit row) 0 with
  | .error e => .error e
  | .ok rid =>
    match pyIdx (pySplit row) (-2) with
    | .error e => .error e
    | .ok dptCol =>
      match pyIdx (pySplitOn dptCol ':') (-1) with
      | .error e => .error e
      | .ok connStr =>
        match pyIdx (pySplit row) (-1) with
        | .error e => .error e
        | .ok target =>
          match pySplitOn target ':' with
          | [_, target_ip, tps] =>
            match pyInt connStr with
            | .error e => .error e
            | .ok conn_port =>
              match pyInt tps with
              | .error e => .error e
              | .ok target_port =>
                .ok (rid, { conn_port := some conn_port, target_addr := target_ip,
                            target_port := target_port })
          | parts =>
            .error (.valueError ("cannot unpack " ++ toString parts.length ++
              " values into 3 targets"))

/-- The row loop of `_prettify_nat_output`, threading the `rules`
dictionary; empty rows (trailing newlines) are skipped. -/
def natRowsLoop : List String → List (String × FwRule) → Except PyErr (List (String × FwRule))
  | [], rules => .ok rules
  | row :: rest, rules =>
    if row == "" then natRowsLoop rest rules
    else
      match parseNatRow row with
      | .error e => .error e
      | .ok (rid, r) => natRowsLoop rest (dictInsert rules rid r)

/-- `FireWall._prettify_nat_output` from `vlab_ipam_api/lib/firewall.py`:
drop the two header lines (`output.split('\x0a')[2:]`) and parse each
remaining row. -/
def _prettify_nat_output (output : String) : Except PyErr (List (String × FwRule)) :=
  natRowsLoop ((pySplitOn output '\n').drop 2) []

/-- One iteration of the `for row in rows:` loop of
`_prettify_filter_output`: rows whose line number is `'1'` or `'2'` are
the chain's default rules and are skipped (`.ok none`); otherwise
`target_ip = columns[5]`, `target_port = columns[7].split(':')[-1]`. -/
def parseFilterRow (row : String) : Except PyErr (Option (String × FwRule)) :=
  match pyIdx (pySplit row) 0 with
  | .error e => .error e
  | .ok rid =>
    if rid == "1" || rid == "2" then .ok none
    else
      match pyIdx (pySplit row) 5 with
      | .error e => .error e
      | .ok target_ip =>
        match pyIdx (pySplit row) 7 with
        | .error e => .error e
        | .ok col7 =>
          match pyIdx (pySplitOn col7 ':') (-1) with
          | .error e => .error e
          | .ok tps =>
            match pyInt tps with
            | .error e => .error e
            | .ok target_port =>
              .ok (some (rid, { conn_port := none, target_addr := target_ip,
                                target_port := target_port }))

/-- The row loop of `_prettify_filter_output`. -/
def filterRowsLoop : List String → List (String × FwRule) → Except PyErr (List (String × FwRule))
  | [], rules => .ok rules
  | row :: rest, rules =>
    if row == "" then filterRowsLoop rest rules
    else
      match parseFilterRow row with
      | .error e => .error e
      | .ok none => filterRowsLoop rest rules
      | .ok (some (rid, r)) => filterRowsLoop rest (dictInsert rules rid r)

/-- `FireWall._prettify_filter_output` from
`vlab_ipam_api/lib/firewall.py`: drop the two header lines and parse each
remaining row, skipping the built-in rules on lines 1 and 2. -/
def _prettify_filter_output (output : String) : Except PyErr (List (String × FwRule)) :=
  filterRowsLoop ((pySplitOn output '\n').drop 2) []

/-- Python `s.lower()`. -/
def pyLower (s : String) : String :=
  String.mk (s.data.map Char.toLower)

/-- The rule scan of `FireWall.find_rule`: the first rule whose target
address and port match — and whose `conn_port` (absent for filter rules)
equals the supplied one — wins. -/
def findRuleLoop (target_port : Int) (target_addr : String) (conn_port : Option Int) :
    List (String × FwRule) → Option String
  | [] => none
  | (rule_id, info) :: rest =>
    if info.target_addr == target_addr && info.target_port == target_port
        && conn_port == info.conn_port then
      some rule_id
    else
      findRuleLoop target_port target_addr conn_port rest

/-- `FireWall.find_rule` from `vlab_ipam_api/lib/firewall.py`, applied to
the parsed rule dictionary that `show(table)` would return: `ValueError`
when looking in the nat table without a `conn_port`, `RuntimeError` when
no rule matches, otherwise the matching rule's line number. -/
def find_rule (rules : List (String × FwRule)) (target_port : Int) (target_addr : String)
    (table : String) (conn_port : Option Int := none) : Except PyErr String :=
  if pyLower table == "nat" && conn_port == none then
    .error (.valueError "Must supply conn_port when looking up NAT rules")
  else
    match findRuleLoop target_port target_addr conn_port rules with
    | some rule_id => .ok rule_id
    | none => .error (.runtimeError "Unable to find iptable rule")

/-- The nat-table listing of the spec's parser example: one DNAT rule on
line 1 mapping connection port 6000 to 192.168.1.2:22. -/
def natExampleOutput : String :=
  "Chain PREROUTING (policy ACCEPT)\n" ++
  "num  target     prot opt source               destination\n" ++
  "1    DNAT       tcp  --  0.0.0.0/0            0.0.0.0/0            tcp dpt:6000 to:192.168.1.2:22\n"

/-- The filter-table listing of the spec's parser example: two built-in
rules on lines 1 and 2, then an accept rule on line 3 to
192.168.1.2:22. -/
def filterExampleOutput : String :=
  "Chain FORWARD (policy ACCEPT)\n" ++
  "num  target     prot opt source               destination\n" ++
  "1    LOG        all  --  0.0.0.0/0            0.0.0.0/0            LOG flags 0 level 4\n" ++
  "2    ACCEPT     all  --  0.0.0.0/0            0.0.0.0/0\n" ++
  "3    ACCEPT     tcp  --  0.0.0.0/0            192.168.1.2          tcp dpt:22\n"

/-- A filter-table listing whose only rule — a genuine port-mapping
accept rule to 192.168.1.2:22 — sits at position 1 of the chain. -/
def filterTopRuleOutput : String :=
  "Chain FORWARD (policy ACCEPT)\n" ++
  "num  target     prot opt source               destination\n" ++
  "1    ACCEPT     tcp  --  0.0.0.0/0            192.168.1.2          tcp dpt:22\n"

end VlabIpam

namespace VlabIpam

/-- C4: `ConsistencyCheck` (`records_valid`) classifies the four presence
combinations exactly as specified: all four absent gives
`("No such port mapping record", 404)`; DB fields present with rule IDs
absent gives the "DB record exist" message with 500; rule IDs present with
DB fields absent gives the "iptable record exist" message with 500; all
four present gives `("", 200)`. -/
theorem records_valid_classifies :
    records_valid .pynone .pynone .pynone .pynone = ("No such port mapping record", 404) ∧
    records_valid .pynone .pynone (.pyint 22) (.pystr "2.3.4.5") =
      ("DB record exist, but no iptable record; contact admin.", 500) ∧
    records_valid (.pystr "3") (.pystr "5") .pynone .pynone =
      ("iptable record exist, but no DB record; contact admin.", 500) ∧
    records_valid (.pystr "3") (.pystr "5") (.pystr "22") (.pystr "2.3.4.5") = ("", 200) := by
  refine ⟨rfl, rfl, rfl, rfl⟩

end VlabIpam

namespace VlabIpam

/-- C1 (counterexample): in an execution where `forward` succeeds,
`prerouting` fails with a `RuntimeError`, and the compensating
`delete_rule` itself fails, the caller receives the delete failure, not
the original prerouting error — because the exception raised inside the
`except` block pre-empts the `raise doh`.  Exactly one compensating
delete is still attempted. -/
theorem map_port_comp_failure_replaces_error :
    (map_port mapPortCompFailOps).1 = .error (.cliError "delete blew up") ∧
    (map_port mapPortCompFailOps).1 ≠ .error (.runtimeError "testing") ∧
    countDeletes (map_port mapPortCompFailOps).2 = 1 := by
  refine ⟨rfl, ?_, rfl⟩
  intro h
  rw [show (map_port mapPortCompFailOps).1 = .error (.cliError "delete blew up") from rfl] at h
  exact absurd (Except.error.inj h) (by decide)

/-- C1 (amended): whenever `forward` succeeds with rule ID `fid` and
`prerouting` fails with a `CliError` or `RuntimeError`, `map_port`
performs exactly one compensating deletion, of the just-created forward
rule from the filter table, and performs no further sub-calls; if the
compensating delete succeeds the caller receives the original prerouting
error, while if the compensating delete itself fails, the delete failure
propagates to the caller instead of the original error. -/
theorem map_port_compensates (ops : MapPortOps) (fid : String) (e : PyErr)
    (hf : ops.forward = .ok fid)
    (hp : ops.prerouting = .error e)
    (he : isCliOrRuntime e = true) :
    countDeletes (map_port ops).2 = 1 ∧
    (map_port ops).2 = [.forwardCall, .preroutingCall, .deleteRuleCall fid "filter"] ∧
    (ops.delete_rule fid "filter" = .ok () → (map_port ops).1 = .error e) ∧
    (∀ e2, ops.delete_rule fid "filter" = .error e2 → (map_port ops).1 = .error e2) := by
  cases hd : ops.delete_rule fid "filter" <;>
    simp [map_port, hf, hp, he, hd, countDeletes]

/-- C1 (witness): the amended theorem evaluated in a concrete environment
where the compensation succeeds: one compensating delete, and the caller
receives the original prerouting error. -/
theorem map_port_compensates_witness :
    countDeletes (map_port mapPortCompOkOps).2 = 1 ∧
    (map_port mapPortCompOkOps).1 = .error (.runtimeError "testing") :=
  ⟨(map_port_compensates mapPortCompOkOps "9" (.runtimeError "testing") rfl rfl rfl).1,
   (map_port_compensates mapPortCompOkOps "9" (.runtimeError "testing") rfl rfl rfl).2.2.1 rfl⟩

end VlabIpam

namespace VlabIpam

/-- C2 (counterexample): in a destroy execution where the nat-rule delete
succeeds, the filter-rule delete fails, and the compensating `forward`
itself fails, `remove_port_map` does not return the filter-delete failure
with status 500 at all — the compensation exception escapes the function
(`save_rules` is never reached), even though `forward` was called exactly
once. -/
theorem remove_filter_fail_comp_failure_escapes :
    (remove_port_map removeFilterFailCompFailOps "3" "5" 22 "1.2.3.4" 50001).1 =
      .error (.runtimeError "Unable to find newly created FORWARD rule for 1.2.3.4:22") ∧
    (remove_port_map removeFilterFailCompFailOps "3" "5" 22 "1.2.3.4" 50001).1 ≠
      .ok (some "testing", 500) ∧
    countForwards (remove_port_map removeFilterFailCompFailOps "3" "5" 22 "1.2.3.4" 50001).2 = 1 := by
  refine ⟨rfl, ?_, rfl⟩
  intro h
  rw [show (remove_port_map removeFilterFailCompFailOps "3" "5" 22 "1.2.3.4" 50001).1 =
      .error (.runtimeError "Unable to find newly created FORWARD rule for 1.2.3.4:22") from rfl] at h
  exact Except.noConfusion h

/-- C2 (amended): in every destroy execution where the nat-rule delete
succeeds and the filter-rule delete fails, provided the compensating
`forward` and `save_rules` succeed, the compensation recreates the
forward rule (`forward` called exactly once) and then persists with
`save_rules`, the database record delete is never attempted, the nat rule
is not recreated (no `map_port` call), and the result is the
filter-delete failure message with status 500; if the compensating
`forward` itself raises, or `forward` succeeds but the compensating
`save_rules` raises, that exception escapes to the caller instead. -/
theorem remove_filter_fail_compensates (ops : RemoveOps) (nat_id filter_id : String)
    (tp : Int) (ta : String) (cp : Int) (e : PyErr)
    (hn : ops.delete_rule nat_id "nat" = .ok ())
    (hf : ops.delete_rule filter_id "filter" = .error e) :
    (∀ fid, ops.forward = .ok fid → ops.save_rules = .ok () →
      (remove_port_map ops nat_id filter_id tp ta cp).1 = .ok (some (pymsg e), 500) ∧
      (remove_port_map ops nat_id filter_id tp ta cp).2 =
        [.deleteRuleCall nat_id "nat", .deleteRuleCall filter_id "filter",
         .forwardCall tp ta, .saveRulesCall] ∧
      countForwards (remove_port_map ops nat_id filter_id tp ta cp).2 = 1 ∧
      countDeletePorts (remove_port_map ops nat_id filter_id tp ta cp).2 = 0 ∧
      countMapPorts (remove_port_map ops nat_id filter_id tp ta cp).2 = 0) ∧
    (∀ e2, ops.forward = .error e2 →
      (remove_port_map ops nat_id filter_id tp ta cp).1 = .error e2) ∧
    (∀ fid e2, ops.forward = .ok fid → ops.save_rules = .error e2 →
      (remove_port_map ops nat_id filter_id tp ta cp).1 = .error e2) := by
  refine ⟨?_, ?_, ?_⟩
  · intro fid hfw hsv
    simp [remove_port_map, hn, hf, hfw, hsv, countForwards, countDeletePorts, countMapPorts]
  · intro e2 hfw
    simp [remove_port_map, hn, hf, hfw]
  · intro fid e2 hfw hsv
    simp [remove_port_map, hn, hf, hfw, hsv]

/-- C2 (witness): the amended theorem evaluated in a concrete destroy
environment with a succeeding compensation: the filter-delete failure is
reported with status 500 and `forward` is called exactly once. -/
theorem remove_filter_fail_compensates_witness :
    (remove_port_map removeFilterFailOps "3" "5" 22 "1.2.3.4" 50001).1 = .ok (some "testing", 500) ∧
    countForwards (remove_port_map removeFilterFailOps "3" "5" 22 "1.2.3.4" 50001).2 = 1 :=
  ⟨((remove_filter_fail_compensates removeFilterFailOps "3" "5" 22 "1.2.3.4" 50001
      (.cliError "testing") rfl rfl).1 "9" rfl rfl).1,
   ((remove_filter_fail_compensates removeFilterFailOps "3" "5" 22 "1.2.3.4" 50001
      (.cliError "testing") rfl rfl).1 "9" rfl rfl).2.2.1⟩

/-- C3 (counterexample): in a destroy execution where both rule deletions
succeed, the database record delete fails, and the compensating
`map_port` itself fails, the record-delete failure is not reported as the
result — the compensation exception escapes `remove_port_map` — even
though `map_port` was called exactly once. -/
theorem remove_db_fail_comp_failure_escapes :
    (remove_port_map removeDbFailCompFailOps "3" "5" 22 "1.2.3.4" 50001).1 =
      .error (.cliError "iptables exploded") ∧
    (remove_port_map removeDbFailCompFailOps "3" "5" 22 "1.2.3.4" 50001).1 ≠
      .ok (some "testing", 500) ∧
    countMapPorts (remove_port_map removeDbFailCompFailOps "3" "5" 22 "1.2.3.4" 50001).2 = 1 := by
  refine ⟨rfl, ?_, rfl⟩
  intro h
  rw [show (remove_port_map removeDbFailCompFailOps "3" "5" 22 "1.2.3.4" 50001).1 =
      .error (.cliError "iptables exploded") from rfl] at h
  exact Except.noConfusion h

/-- C3 (amended): in every destroy execution where both rule deletions
succeed and the database record delete fails, provided the compensating
`map_port` succeeds, `map_port` is called exactly once to recreate both
rules, the record delete was attempted exactly once (and failed, so the
record remains undeleted), and the record-delete failure is reported with
status 500; if the compensating `map_port` itself raises, that exception
escapes to the caller instead. -/
theorem remove_db_fail_compensates (ops : RemoveOps) (nat_id filter_id : String)
    (tp : Int) (ta : String) (cp : Int) (e : PyErr)
    (hn : ops.delete_rule nat_id "nat" = .ok ())
    (hf : ops.delete_rule filter_id "filter" = .ok ())
    (hd : ops.delete_port = .error e) :
    (∀ ids, ops.map_port = .ok ids →
      (remove_port_map ops nat_id filter_id tp ta cp).1 = .ok (some (pymsg e), 500) ∧
      (remove_port_map ops nat_id filter_id tp ta cp).2 =
        [.deleteRuleCall nat_id "nat", .deleteRuleCall filter_id "filter",
         .deletePortCall cp, .mapPortCall cp tp ta] ∧
      countMapPorts (remove_port_map ops nat_id filter_id tp ta cp).2 = 1 ∧
      countDeletePorts (remove_port_map ops nat_id filter_id tp ta cp).2 = 1) ∧
    (∀ e2, ops.map_port = .error e2 →
      (remove_port_map ops nat_id filter_id tp ta cp).1 = .error e2) := by
  constructor
  · intro ids hmp
    simp [remove_port_map, hn, hf, hd, hmp, countMapPorts, countDeletePorts]
  · intro e2 hmp
    simp [remove_port_map, hn, hf, hd, hmp]

/-- C3 (witness): the amended theorem evaluated in a concrete destroy
environment with a succeeding compensation: the record-delete failure is
reported with status 500 and `map_port` is called exactly once. -/
theorem remove_db_fail_compensates_witness :
    (remove_port_map removeDbFailOps "3" "5" 22 "1.2.3.4" 50001).1 = .ok (some "testing", 500) ∧
    countMapPorts (remove_port_map removeDbFailOps "3" "5" 22 "1.2.3.4" 50001).2 = 1 :=
  ⟨((remove_db_fail_compensates removeDbFailOps "3" "5" 22 "1.2.3.4" 50001
      (.databaseError "testing" "57P01") rfl rfl rfl).1 ("9", "3") rfl).1,
   ((remove_db_fail_compensates removeDbFailOps "3" "5" 22 "1.2.3.4" 50001
      (.databaseError "testing" "57P01") rfl rfl rfl).1 ("9", "3") rfl).2.2.1⟩

end VlabIpam

namespace VlabIpam

/-- Helper: if every attempt in the window reports the
uniqueness-violation code, the retry loop runs out of iterations and
raises the `for/else` `RuntimeError`. -/
theorem add_port_go_all_collide (insert : Nat → Except DbError Unit) (ports : Nat → Nat)
    (maxTries : Nat) (msgs : Nat → String) :
    ∀ remaining i, (∀ j, j < remaining → insert (i + j) = .error ⟨msgs (i + j), "23505"⟩) →
      (add_port_go insert ports maxTries i remaining).1 =
        .error (.runtimeError ("Failed to create port map after " ++ toString maxTries ++ " tries")) := by
  intro remaining
  induction remaining with
  | zero => intro i _; rfl
  | succ r ih =>
    intro i h
    have h0 : insert i = .error ⟨msgs i, "23505"⟩ := by
      have := h 0 (by omega)
      simpa using this
    have hrec := ih (i + 1) (fun j hj => by
      have := h (j + 1) (by omega)
      have e : i + 1 + j = i + (j + 1) := by omega
      rw [e]
      exact this)
    simp [add_port_go, h0]
    exact hrec

/-- C5: if all of the configured `VLAB_INSERT_MAX_TRIES` insert attempts
fail with the uniqueness-violation code `'23505'`, `add_port` raises the
capacity-exhaustion `RuntimeError` naming the attempt count — an error
distinct from the `DatabaseError` (`StoreError`) class used for store
failures. -/
theorem add_port_exhaustion_raises_capacity (insert : Nat → Except DbError Unit)
    (ports : Nat → Nat) (c : Constants) (msgs : Nat → String)
    (h : ∀ i, i < c.VLAB_INSERT_MAX_TRIES → insert i = .error ⟨msgs i, "23505"⟩) :
    (add_port insert ports c).1 =
      .error (.runtimeError
        ("Failed to create port map after " ++ toString c.VLAB_INSERT_MAX_TRIES ++ " tries")) ∧
    raisedStoreError (add_port insert ports c).1 = false := by
  have hmain : (add_port insert ports c).1 =
      .error (.runtimeError
        ("Failed to create port map after " ++ toString c.VLAB_INSERT_MAX_TRIES ++ " tries")) :=
    add_port_go_all_collide insert ports c.VLAB_INSERT_MAX_TRIES msgs
      c.VLAB_INSERT_MAX_TRIES 0 (fun j hj => by simpa using h j hj)
  refine ⟨hmain, ?_⟩
  rw [hmain]
  rfl

/-- C5 (witness): with `VLAB_INSERT_MAX_TRIES = 3` and every attempt
colliding, `add_port` raises the capacity-exhaustion `RuntimeError` and no
`DatabaseError`. -/
theorem add_port_exhaustion_witness :
    (add_port alwaysCollide examplePorts threeTriesConst).1 =
      .error (.runtimeError "Failed to create port map after 3 tries") ∧
    raisedStoreError (add_port alwaysCollide examplePorts threeTriesConst).1 = false :=
  add_port_exhaustion_raises_capacity alwaysCollide examplePorts threeTriesConst
    (fun _ => "testing") (fun _ _ => rfl)

/-- C6: `add_port` retries a fresh port exactly when an insert fails with
the uniqueness-violation code: if attempt 0 collides and attempt 1
succeeds, the second drawn port is returned and exactly the two ports
were attempted; and for any insert oracle whose first attempt fails with
a non-`'23505'` code, that `DatabaseError` propagates immediately after
exactly one attempt. -/
theorem add_port_retries_on_collision (insert : Nat → Except DbError Unit)
    (ports : Nat → Nat) (c : Constants) (m : String)
    (htries : 2 ≤ c.VLAB_INSERT_MAX_TRIES)
    (h0 : insert 0 = .error ⟨m, "23505"⟩)
    (h1 : insert 1 = .ok ()) :
    (add_port insert ports c).1 = .ok (ports 1) ∧
    (add_port insert ports c).2 = [ports 0, ports 1] ∧
    (∀ insert2 : Nat → Except DbError Unit, ∀ m2 code, code ≠ "23505" →
      insert2 0 = .error ⟨m2, code⟩ →
      (add_port insert2 ports c).1 = .error (.databaseError m2 code) ∧
      (add_port insert2 ports c).2 = [ports 0]) := by
  obtain ⟨k, hk⟩ : ∃ k, c.VLAB_INSERT_MAX_TRIES = k + 1 + 1 :=
    ⟨c.VLAB_INSERT_MAX_TRIES - 2, by omega⟩
  refine ⟨?_, ?_, ?_⟩
  · unfold add_port
    rw [hk]
    simp [add_port_go, h0, h1]
  · unfold add_port
    rw [hk]
    simp [add_port_go, h0, h1]
  · intro insert2 m2 code hne h02
    constructor
    · unfold add_port
      rw [hk]
      simp [add_port_go, h02, hne]
    · unfold add_port
      rw [hk]
      simp [add_port_go, h02, hne]

/-- C6 (witness): a concrete run in which the store rejects the first
drawn port (50000) with the uniqueness-violation code and accepts the
second: `add_port` returns 50001 and attempted exactly the two ports. -/
theorem add_port_retries_witness :
    (add_port collideThenOk examplePorts threeTriesConst).1 = .ok 50001 ∧
    (add_port collideThenOk examplePorts threeTriesConst).2 = [50000, 50001] :=
  ⟨(add_port_retries_on_collision collideThenOk examplePorts threeTriesConst "testing"
      (by decide) rfl rfl).1,
   (add_port_retries_on_collision collideThenOk examplePorts threeTriesConst "testing"
      (by decide) rfl rfl).2.1⟩

end VlabIpam

namespace VlabIpam

/-- C7: when `add_port` (the saga's first step) raises, the create path
does stay free of side effects — no firewall call and no record delete is
performed (the trace holds only the failed `add_port` and the `finally`
close) — but the error surfaced to the caller is not the `add_port`
failure: evaluating `db.delete_port(conn_port)` in the shared `except`
block raises `UnboundLocalError` (`conn_port` was never bound), and that
exception escapes the view instead of the intended
`(error, 500)` response carrying the `add_port` message. -/
theorem post_add_port_failure_unbound_local :
    (post_portmap postAddPortFailOps).1 = .error (.unboundLocalError "conn_port") ∧
    (post_portmap postAddPortFailOps).1 ≠ .ok (some "testing", none, 500) ∧
    (post_portmap postAddPortFailOps).2 = [.addPortCall, .dbCloseCall] := by
  refine ⟨rfl, ?_, rfl⟩
  intro h
  rw [show (post_portmap postAddPortFailOps).1 =
      .error (.unboundLocalError "conn_port") from rfl] at h
  exact Except.noConfusion h

end VlabIpam

namespace VlabIpam

/-- Helper: replacing the value under an existing key leaves key
presence unchanged. -/
theorem pyGet_updateKey_isSome {β : Type} (k : String) (v : β) (n : String) :
    ∀ acc : List (String × β), (pyGet (updateKey acc k v) n).isSome = (pyGet acc n).isSome := by
  intro acc
  induction acc with
  | nil => rfl
  | cons hd tl ih =>
    obtain ⟨k0, v0⟩ := hd
    by_cases h : k0 = k
    · subst h
      by_cases h2 : k0 = n <;> simp [updateKey, pyGet, h2]
    · have hne : (k0 == k) = false := by simp [h]
      by_cases h2 : k0 = n
      · subst h2
        simp [updateKey, pyGet, hne]
      · simp [updateKey, pyGet, hne, h2, ih]

/-- Helper: appending a binding adds exactly its key. -/
theorem pyGet_append_isSome {β : Type} (k : String) (v : β) (n : String) :
    ∀ acc : List (String × β),
      (pyGet (acc ++ [(k, v)]) n).isSome = ((pyGet acc n).isSome || (k == n)) := by
  intro acc
  induction acc with
  | nil => by_cases h : k = n <;> simp [pyGet, h]
  | cons hd tl ih =>
    obtain ⟨k0, v0⟩ := hd
    by_cases h2 : k0 = n <;> simp [pyGet, h2, ih]

/-- Helper: one loop-body step of `lookup_addr` adds exactly the row's
machine name as a key. -/
theorem pyGet_addAddrRow_isSome (acc : List (String × AddrEntry)) (t : AddrProj) (n : String) :
    (pyGet (addAddrRow acc t) n).isSome = ((pyGet acc n).isSome || (t.target_name == n)) := by
  unfold addAddrRow
  cases hg : pyGet acc t.target_name with
  | some entry =>
    rw [pyGet_updateKey_isSome]
    by_cases h : t.target_name = n
    · subst h
      simp [hg]
    · simp [h]
  | none =>
    rw [pyGet_append_isSome]

/-- Helper: the grouping fold of `lookup_addr` has a key for a name
exactly when the accumulator already had it or some processed row carries
that name. -/
theorem pyGet_foldl_isSome (n : String) :
    ∀ (rows : List AddrProj) (acc : List (String × AddrEntry)),
      (pyGet (rows.foldl addAddrRow acc) n).isSome =
        ((pyGet acc n).isSome || rows.any (fun t => t.target_name == n)) := by
  intro rows
  induction rows with
  | nil => intro acc; simp
  | cons hd tl ih =>
    intro acc
    simp only [List.foldl_cons, List.any_cons]
    rw [ih, pyGet_addAddrRow_isSome]
    cases (pyGet acc n).isSome <;> cases hb : (hd.target_name == n) <;> simp [hb]

/-- Helper: the `if/elif` chain of `lookup_addr` selects exactly the
single filter `addrFilterApplied`. -/
theorem lookup_addr_eq_filter (table : List IpamRow) (name addr component : Option String) :
    lookup_addr table name addr component =
      (((table.filter (addrFilterApplied name addr component)).map projAddr).dedup).foldl
        addAddrRow [] := by
  unfold lookup_addr addrFilterApplied
  by_cases h1 : optStrTruthy addr
  · simp [h1]
  · by_cases h2 : optStrTruthy name
    · simp [h1, h2]
    · by_cases h3 : optStrTruthy component
      · simp [h1, h2, h3]
      · simp [h1, h2, h3]

/-- C8 (counterexample): with `name="a"` and `component="b"` both
supplied, `lookup_addr` returns the machine "a" even though its component
"c" does not match the supplied component filter — the `component`
argument is ignored whenever `name` is given, so the supplied filters are
not combined conjunctively. -/
theorem lookup_addr_not_conjunctive :
    lookup_addr exTable (some "a") none (some "b") =
      [("a", { component := "c", routable := some true, addr := ["1.1.1.1"] })] ∧
    sqlLike "c" "b" = false := by
  exact ⟨rfl, rfl⟩

/-- C8 (amended): `lookup_addr` applies at most one of the supplied
filters, chosen with the precedence `addr` over `name` over `component`
(empty strings count as omitted), and groups the matching rows by machine
name: the result has an entry for a name exactly when some table row
passing the single selected filter carries that name. -/
theorem lookup_addr_applies_single_filter (table : List IpamRow)
    (name addr component : Option String) (n : String) :
    pyGet (lookup_addr table name addr component) n ≠ none ↔
      ∃ r ∈ table, addrFilterApplied name addr component r = true ∧ r.target_name = n := by
  rw [lookup_addr_eq_filter, ← Option.isSome_iff_ne_none, pyGet_foldl_isSome]
  simp only [pyGet, Option.isSome_none, Bool.false_or, List.any_eq_true, List.mem_dedup,
    List.mem_map, List.mem_filter, beq_iff_eq]
  constructor
  · rintro ⟨t, ⟨r, ⟨hr, hf⟩, hproj⟩, hn⟩
    exact ⟨r, hr, hf, by rw [← hn, ← hproj]; rfl⟩
  · rintro ⟨r, hr, hf, hn⟩
    exact ⟨projAddr r, ⟨r, ⟨hr, hf⟩, rfl⟩, hn⟩

end VlabIpam

namespace VlabIpam

set_option maxRecDepth 10000 in
/-- C9: the rule-table parsers produce exactly the specified maps on the
example listings: the nat listing with a DNAT rule on line 1 mapping
connection port 6000 to 192.168.1.2:22 parses to exactly that entry
under key "1", and the filter listing with built-in rules on lines 1 and
2 followed by an accept rule on line 3 parses to only the line-3 entry
(built-ins excluded). -/
theorem prettify_parses_example_tables :
    _prettify_nat_output natExampleOutput =
      .ok [("1", { conn_port := some 6000, target_addr := "192.168.1.2", target_port := 22 })] ∧
    _prettify_filter_output filterExampleOutput =
      .ok [("3", { conn_port := none, target_addr := "192.168.1.2", target_port := 22 })] :=
  ⟨rfl, rfl⟩

/-- Helper: a row the filter parser keeps never carries line number "1"
or "2" — those positions are skipped unconditionally. -/
theorem parseFilterRow_skips_builtins (row : String) (rid : String) (r : FwRule)
    (h : parseFilterRow row = .ok (some (rid, r))) :
    rid ≠ "1" ∧ rid ≠ "2" := by
  unfold parseFilterRow at h
  split at h
  · cases h
  · rename_i rid0 heq0
    split at h
    · cases h
    · rename_i hguard
      split at h
      · cases h
      · split at h
        · cases h
        · split at h
          · cases h
          · split at h
            · cases h
            · cases h
              constructor
              · intro he
                subst he
                simp at hguard
              · intro he
                subst he
                simp at hguard

/-- Helper: looking up a key other than the inserted one is unchanged by
`updateKey`. -/
theorem pyGet_updateKey_ne {β : Type} (rid k : String) (v : β) (hne : rid ≠ k) :
    ∀ acc : List (String × β), pyGet (updateKey acc rid v) k = pyGet acc k := by
  intro acc
  induction acc with
  | nil => rfl
  | cons hd tl ih =>
    obtain ⟨k0, v0⟩ := hd
    by_cases h : k0 = rid
    · subst h
      have hne2 : (k0 == k) = false := by simp [hne]
      simp [updateKey, pyGet, hne2]
    · have hb : (k0 == rid) = false := by simp [h]
      by_cases h2 : k0 = k
      · subst h2
        simp [updateKey, pyGet, hb]
      · simp [updateKey, pyGet, hb, h2, ih]

/-- Helper: looking up a key other than the appended one is unchanged by
appending a binding. -/
theorem pyGet_append_ne {β : Type} (rid k : String) (v : β) (hne : rid ≠ k) :
    ∀ acc : List (String × β), pyGet (acc ++ [(rid, v)]) k = pyGet acc k := by
  intro acc
  induction acc with
  | nil => simp [pyGet, hne]
  | cons hd tl ih =>
    obtain ⟨k0, v0⟩ := hd
    by_cases h2 : k0 = k <;> simp [pyGet, h2, ih]

/-- Helper: `rules[rid] = v` leaves every other key's value unchanged. -/
theorem pyGet_dictInsert_ne {β : Type} (rid k : String) (v : β) (hne : rid ≠ k)
    (acc : List (String × β)) : pyGet (dictInsert acc rid v) k = pyGet acc k := by
  unfold dictInsert
  split
  · exact pyGet_updateKey_ne rid k v hne acc
  · exact pyGet_append_ne rid k v hne acc

/-- Helper: the filter parser's row loop never creates a "1" or "2"
key. -/
theorem filterRowsLoop_no_builtins (k : String) (hk : k = "1" ∨ k = "2") :
    ∀ (rows : List String) (acc rules : List (String × FwRule)),
      pyGet acc k = none → filterRowsLoop rows acc = .ok rules → pyGet rules k = none := by
  intro rows
  induction rows with
  | nil =>
    intro acc rules hacc h
    unfold filterRowsLoop at h
    cases h
    exact hacc
  | cons row rest ih =>
    intro acc rules hacc h
    unfold filterRowsLoop at h
    split at h
    · exact ih acc rules hacc h
    · split at h
      · cases h
      · exact ih acc rules hacc h
      · rename_i rid r heq
        have hb := parseFilterRow_skips_builtins row rid r heq
        have hne : rid ≠ k := by
          rcases hk with hk2 | hk2 <;> subst hk2
          · exact hb.1
          · exact hb.2
        refine ih (dictInsert acc rid r) rules ?_ h
        rw [pyGet_dictInsert_ne rid k r hne acc]
        exact hacc

/-- Helper: the rule ID `find_rule`'s scan returns is a key of the rule
dictionary it scanned. -/
theorem findRuleLoop_isSome (tp : Int) (ta : String) (cp : Option Int) :
    ∀ (rules : List (String × FwRule)) (rid : String),
      findRuleLoop tp ta cp rules = some rid → (pyGet rules rid).isSome = true := by
  intro rules
  induction rules with
  | nil => intro rid h; cases h
  | cons hd tl ih =>
    obtain ⟨k0, info⟩ := hd
    intro rid h
    unfold findRuleLoop at h
    split at h
    · cases h
      simp [pyGet]
    · have hs := ih rid h
      by_cases hk : k0 = rid <;> simp [pyGet, hk, hs]

/-- C10: for every filter-table listing output, the parsed result never
contains an entry at position "1" or "2" — those line numbers are skipped
unconditionally, by position rather than by rule content — and therefore
`find_rule` over the parsed filter table can never return rule ID "1" or
"2" (so a genuine accept rule at one of those chain positions can never
be located). -/
theorem filter_parser_never_yields_builtin_positions (output : String)
    (rules : List (String × FwRule))
    (h : _prettify_filter_output output = .ok rules) :
    pyGet rules "1" = none ∧ pyGet rules "2" = none ∧
    ∀ (tp : Int) (ta : String) (cp : Option Int) (rid : String),
      find_rule rules tp ta "filter" cp = .ok rid → rid ≠ "1" ∧ rid ≠ "2" := by
  unfold _prettify_filter_output at h
  have h1 : pyGet rules "1" = none :=
    filterRowsLoop_no_builtins "1" (Or.inl rfl) ((pySplitOn output '\n').drop 2) [] rules rfl h
  have h2 : pyGet rules "2" = none :=
    filterRowsLoop_no_builtins "2" (Or.inr rfl) ((pySplitOn output '\n').drop 2) [] rules rfl h
  refine ⟨h1, h2, ?_⟩
  intro tp ta cp rid hf
  unfold find_rule at hf
  have hguard : (pyLower "filter" == "nat") = false := rfl
  rw [hguard, Bool.false_and, if_neg (by simp)] at hf
  cases hl : findRuleLoop tp ta cp rules with
  | none => rw [hl] at hf; cases hf
  | some rid0 =>
    rw [hl] at hf
    have hr : rid0 = rid := Except.ok.inj hf
    subst hr
    have hs := findRuleLoop_isSome tp ta cp rules rid0 hl
    constructor
    · intro he
      rw [he, h1] at hs
      simp at hs
    · intro he
      rw [he, h2] at hs
      simp at hs

set_option maxRecDepth 10000 in
/-- C10 (witness): a filter listing whose only (genuine accept) rule sits
at chain position 1 parses to the empty dictionary, and in particular the
parsed result has no entry at position "1". -/
theorem filter_parser_builtin_positions_witness :
    _prettify_filter_output filterTopRuleOutput = .ok [] ∧
    pyGet ([] : List (String × FwRule)) "1" = none :=
  ⟨rfl, (filter_parser_never_yields_builtin_positions filterTopRuleOutput [] rfl).1⟩

end VlabIpam
